import Mathlib

/-!
Shallow embedding of the Quasi mesh utilities
(scripts/analyze_mesh.py, scripts/analyze_bunny.py,
scripts/convert_obj_to_json.py) and proofs of the specification claims.

Numbers are modelled as rationals, Python exceptions escaping a function
as `Option.none`, and error returns of `analyze_mesh` as `Except.error`.
-/

namespace Quasi

/-- A vertex: an ordered triple of coordinates, as built by
`vertex_list.append((vertices[i], vertices[i+1], vertices[i+2]))`. -/
structure Vertex where
  x : ℚ
  y : ℚ
  z : ℚ
deriving DecidableEq

/-- One record of the legacy `triangles` array: keys `v0`, `v1`, `v2`,
each a 3-number array, read as `(v[0], v[1], v[2])`. -/
structure Triangle where
  v0 : Vertex
  v1 : Vertex
  v2 : Vertex
deriving DecidableEq

/-- The parsed JSON object as seen by `analyze_mesh`: each optional field
is present iff the corresponding key is in the JSON dictionary. -/
structure MeshData where
  vertices : Option (List ℚ)
  indices : Option (List Int)
  triangles : Option (List Triangle)

/-- The statistics printed by `analyze_mesh` lines 75-95 and
`analyze_bunny` lines 17-37. -/
structure BoundingBoxStats where
  min_x : ℚ
  max_x : ℚ
  min_y : ℚ
  max_y : ℚ
  min_z : ℚ
  max_z : ℚ
  center_x : ℚ
  center_y : ℚ
  center_z : ℚ
  size_x : ℚ
  size_y : ℚ
  size_z : ℚ
  max_dimension : ℚ
deriving DecidableEq

/-- The error returns of `analyze_mesh` (each `print` + `return False`
after JSON parsing succeeded). -/
inductive MeshError where
  | malformedVertexArray (len : Nat)
  | malformedIndexArray (len : Nat)
  | unrecognizedFormat
  | emptyMesh
deriving DecidableEq

/-- The grouping loop `for i in range(0, len(vertices), 3)` reading
`vertices[i], vertices[i+1], vertices[i+2]`, for arrays whose length is
divisible by 3 (guaranteed by the checks in `analyze_mesh`). -/
def groupTriples : List ℚ → List Vertex
  | a :: b :: c :: rest => ⟨a, b, c⟩ :: groupTriples rest
  | _ => []

/-- The same grouping loop on an unchecked array, as run by
`analyze_bunny`: when the length is not divisible by 3 the last
iteration indexes out of range and Python raises IndexError, modelled
as `none`. -/
def groupTriplesStrict : List ℚ → Option (List Vertex)
  | [] => some []
  | a :: b :: c :: rest => (groupTriplesStrict rest).map (fun vl => ⟨a, b, c⟩ :: vl)
  | _ => none

/-- The bounds computation of `analyze_mesh` lines 75-95 (identical in
`analyze_bunny` lines 17-37) on a non-empty vertex list `v :: rest`:
Python `min` and `max` over a non-empty sequence are left folds from its
first element, and center, size and max dimension are derived from them. -/
def boundsOf (v : Vertex) (rest : List Vertex) : BoundingBoxStats where
  min_x := (rest.map Vertex.x).foldl min v.x
  max_x := (rest.map Vertex.x).foldl max v.x
  min_y := (rest.map Vertex.y).foldl min v.y
  max_y := (rest.map Vertex.y).foldl max v.y
  min_z := (rest.map Vertex.z).foldl min v.z
  max_z := (rest.map Vertex.z).foldl max v.z
  center_x := ((rest.map Vertex.x).foldl min v.x + (rest.map Vertex.x).foldl max v.x) / 2
  center_y := ((rest.map Vertex.y).foldl min v.y + (rest.map Vertex.y).foldl max v.y) / 2
  center_z := ((rest.map Vertex.z).foldl min v.z + (rest.map Vertex.z).foldl max v.z) / 2
  size_x := (rest.map Vertex.x).foldl max v.x - (rest.map Vertex.x).foldl min v.x
  size_y := (rest.map Vertex.y).foldl max v.y - (rest.map Vertex.y).foldl min v.y
  size_z := (rest.map Vertex.z).foldl max v.z - (rest.map Vertex.z).foldl min v.z
  max_dimension :=
    max ((rest.map Vertex.x).foldl max v.x - (rest.map Vertex.x).foldl min v.x)
      (max ((rest.map Vertex.y).foldl max v.y - (rest.map Vertex.y).foldl min v.y)
        ((rest.map Vertex.z).foldl max v.z - (rest.map Vertex.z).foldl min v.z))

/-- Statistics of a vertex list; `none` on the empty list, where Python
`min` over an empty sequence would raise ValueError. -/
def computeBounds : List Vertex → Option BoundingBoxStats
  | [] => none
  | v :: rest => some (boundsOf v rest)

/-- The compact branch of `analyze_mesh` (lines 27-48): the divisibility
checks on `vertices` and `indices`, then grouping into coordinate
triples. -/
def CompactMeshReader (vertices : List ℚ) (indices : List Int) :
    Except MeshError (List Vertex) :=
  if vertices.length % 3 ≠ 0 then .error (.malformedVertexArray vertices.length)
  else if indices.length % 3 ≠ 0 then .error (.malformedIndexArray indices.length)
  else .ok (groupTriples vertices)

/-- The legacy branch of `analyze_mesh` (lines 52-65): the append loop
`for triangle in triangles: for vertex_key in [v0, v1, v2]: append`. -/
def LegacyMeshReader (triangles : List Triangle) : List Vertex :=
  triangles.foldl (fun acc t => acc ++ [t.v0, t.v1, t.v2]) []

/-- The format dispatch of `analyze_mesh` lines 25-68: the compact
branch when both the `vertices` and `indices` keys are present, else the
legacy branch when `triangles` is present, else the unrecognized-format
error. -/
def readMesh (data : MeshData) : Except MeshError (List Vertex) :=
  match data.vertices, data.indices with
  | some vs, some idx => CompactMeshReader vs idx
  | _, _ =>
    match data.triangles with
    | some ts => .ok (LegacyMeshReader ts)
    | none => .error .unrecognizedFormat

/-- `analyze_mesh` after JSON parsing: dispatch and read the vertex
list, fail with the empty-mesh error when `if not vertex_list` fires
(line 70), else compute and report the bounding-box statistics. -/
def analyze_mesh (data : MeshData) : Except MeshError BoundingBoxStats :=
  match readMesh data with
  | .error e => .error e
  | .ok vl =>
    match computeBounds vl with
    | none => .error .emptyMesh
    | some s => .ok s

/-- `analyze_bunny` on the `vertices` array of its fixed input file: no
divisibility check and no emptiness check, so `none` models an uncaught
exception (IndexError from the grouping loop, or ValueError from `min`
over an empty sequence). -/
def analyze_bunny (vertices : List ℚ) : Option BoundingBoxStats :=
  match groupTriplesStrict vertices with
  | none => none
  | some vl => computeBounds vl

/-- One line of the restricted OBJ dialect, classified the way
`convert_obj_to_json` classifies lines by their leading characters. -/
inductive ObjLine where
  | vertexLine (a b c : ℚ)
  | faceLine (a b c : Int)
  | headerVertexCount (n : Int)
  | headerFaceCount (n : Int)
  | otherLine
deriving DecidableEq

/-- The header scan of `convert_obj_to_json` lines 15-19: the first 10
lines, keeping the last `# vertex count = N` and `# face count = N`
seen; both default to 0. -/
def parseHeaderCounts (lines : List ObjLine) : Int × Int :=
  (lines.take 10).foldl
    (fun acc l =>
      match l with
      | .headerVertexCount n => (n, acc.2)
      | .headerFaceCount n => (acc.1, n)
      | _ => acc)
    (0, 0)

/-- The vertex pass of `convert_obj_to_json` lines 22-26:
`vertices.extend([x, y, z])` for every line starting with `v `. -/
def parseObjVertices (lines : List ObjLine) : List ℚ :=
  lines.foldl
    (fun acc l =>
      match l with
      | .vertexLine a b c => acc ++ [a, b, c]
      | _ => acc)
    []

/-- The face pass of `convert_obj_to_json` lines 29-34:
`indices.extend([v1, v2, v3])` with each OBJ 1-based index less 1, for
every line starting with `f `. -/
def parseObjIndices (lines : List ObjLine) : List Int :=
  lines.foldl
    (fun acc l =>
      match l with
      | .faceLine a b c => acc ++ [a - 1, b - 1, c - 1]
      | _ => acc)
    []

/-- The fields of the `json_data` record written by
`convert_obj_to_json` lines 37-44 (the `name` and `description` strings
are display only and omitted). -/
structure ObjRecord where
  vertex_count : Int
  face_count : Int
  vertices : List ℚ
  indices : List Int
deriving DecidableEq

/-- The observable outcome of `convert_obj_to_json`: the record written
to the JSON file together with the two mismatch warnings of lines
55-58. -/
structure ConvertResult where
  record : ObjRecord
  vertexCountWarning : Bool
  faceCountWarning : Bool
deriving DecidableEq

/-- `convert_obj_to_json` on the lines of the OBJ file: header counts go
into the record verbatim, actual counts are floor-divided lengths, a
mismatch only sets a warning flag, and the record is written
regardless. -/
def convert_obj_to_json (lines : List ObjLine) : ConvertResult :=
  let vertices := parseObjVertices lines
  let indices := parseObjIndices lines
  let counts := parseHeaderCounts lines
  { record :=
      { vertex_count := counts.1
        face_count := counts.2
        vertices := vertices
        indices := indices }
    vertexCountWarning := decide (((vertices.length / 3 : Nat) : Int) ≠ counts.1)
    faceCountWarning := decide (((indices.length / 3 : Nat) : Int) ≠ counts.2) }

/-- The flattening the spec ascribes to the legacy reader: for each
triangle emit v0, then v1, then v2, in input order. -/
def legacyFlat : List Triangle → List Vertex
  | [] => []
  | t :: rest => t.v0 :: t.v1 :: t.v2 :: legacyFlat rest

/-- The flat coordinate stream contributed by the `v ` lines of an OBJ
file, in file order. -/
def vertexFlat : List ObjLine → List ℚ
  | [] => []
  | .vertexLine a b c :: rest => a :: b :: c :: vertexFlat rest
  | _ :: rest => vertexFlat rest

/-- The triples parsed from the `v ` lines of an OBJ file, in file
order. -/
def objVertexTriples : List ObjLine → List Vertex
  | [] => []
  | .vertexLine a b c :: rest => ⟨a, b, c⟩ :: objVertexTriples rest
  | _ :: rest => objVertexTriples rest

/-- Each `f ` line of an OBJ file contributing its three integers each
less 1, in file order. -/
def objFaceIndexList : List ObjLine → List Int
  | [] => []
  | .faceLine a b c :: rest => (a - 1) :: (b - 1) :: (c - 1) :: objFaceIndexList rest
  | _ :: rest => objFaceIndexList rest

/-! Helper lemmas: the left fold of `min` from the head of a non-empty
list is its least element, and dually for `max`. -/

lemma foldl_min_le_init (a : ℚ) (l : List ℚ) : l.foldl min a ≤ a := by
  induction l generalizing a with
  | nil => simp
  | cons b l ih => exact le_trans (ih (min a b)) (min_le_left a b)

lemma foldl_min_mem (a : ℚ) (l : List ℚ) : l.foldl min a ∈ a :: l := by
  induction l generalizing a with
  | nil => simp
  | cons b l ih =>
    have h := ih (min a b)
    rcases List.mem_cons.mp h with h1 | h1
    · rcases min_choice a b with hab | hab
      · exact List.mem_cons.mpr (Or.inl (h1.trans hab))
      · exact List.mem_cons.mpr (Or.inr (List.mem_cons.mpr (Or.inl (h1.trans hab))))
    · exact List.mem_cons.mpr (Or.inr (List.mem_cons.mpr (Or.inr h1)))

lemma foldl_min_le (a : ℚ) (l : List ℚ) : ∀ q ∈ a :: l, l.foldl min a ≤ q := by
  induction l generalizing a with
  | nil =>
    intro q hq
    simp only [List.mem_singleton] at hq
    simp [hq]
  | cons b l ih =>
    intro q hq
    rcases List.mem_cons.mp hq with rfl | hq1
    · exact le_trans (foldl_min_le_init (min q b) l) (min_le_left q b)
    · rcases List.mem_cons.mp hq1 with rfl | hq2
      · exact le_trans (foldl_min_le_init (min a q) l) (min_le_right a q)
      · exact ih (min a b) q (List.mem_cons.mpr (Or.inr hq2))

lemma init_le_foldl_max (a : ℚ) (l : List ℚ) : a ≤ l.foldl max a := by
  induction l generalizing a with
  | nil => simp
  | cons b l ih => exact le_trans (le_max_left a b) (ih (max a b))

lemma foldl_max_mem (a : ℚ) (l : List ℚ) : l.foldl max a ∈ a :: l := by
  induction l generalizing a with
  | nil => simp
  | cons b l ih =>
    have h := ih (max a b)
    rcases List.mem_cons.mp h with h1 | h1
    · rcases max_choice a b with hab | hab
      · exact List.mem_cons.mpr (Or.inl (h1.trans hab))
      · exact List.mem_cons.mpr (Or.inr (List.mem_cons.mpr (Or.inl (h1.trans hab))))
    · exact List.mem_cons.mpr (Or.inr (List.mem_cons.mpr (Or.inr h1)))

lemma le_foldl_max (a : ℚ) (l : List ℚ) : ∀ q ∈ a :: l, q ≤ l.foldl max a := by
  induction l generalizing a with
  | nil =>
    intro q hq
    simp only [List.mem_singleton] at hq
    simp [hq]
  | cons b l ih =>
    intro q hq
    rcases List.mem_cons.mp hq with rfl | hq1
    · exact le_trans (le_max_left q b) (init_le_foldl_max (max q b) l)
    · rcases List.mem_cons.mp hq1 with rfl | hq2
      · exact le_trans (le_max_right a q) (init_le_foldl_max (max a q) l)
      · exact ih (max a b) q (List.mem_cons.mpr (Or.inr hq2))

lemma foldl_min_perm (a b : ℚ) (l m : List ℚ) (h : (a :: l).Perm (b :: m)) :
    l.foldl min a = m.foldl min b :=
  le_antisymm
    (foldl_min_le a l _ (h.mem_iff.mpr (foldl_min_mem b m)))
    (foldl_min_le b m _ (h.mem_iff.mp (foldl_min_mem a l)))

lemma foldl_max_perm (a b : ℚ) (l m : List ℚ) (h : (a :: l).Perm (b :: m)) :
    l.foldl max a = m.foldl max b :=
  le_antisymm
    (le_foldl_max b m _ (h.mem_iff.mp (foldl_max_mem a l)))
    (le_foldl_max a l _ (h.mem_iff.mpr (foldl_max_mem b m)))

/-! Helper lemmas: the append loops equal their recursive flattenings. -/

lemma legacy_foldl_eq (triangles : List Triangle) :
    ∀ acc : List Vertex,
      triangles.foldl (fun acc t => acc ++ [t.v0, t.v1, t.v2]) acc =
        acc ++ legacyFlat triangles := by
  induction triangles with
  | nil => intro acc; simp [legacyFlat]
  | cons t rest ih =>
    intro acc
    simp only [List.foldl_cons, legacyFlat, ih]
    simp

lemma parseObjVertices_foldl_eq (lines : List ObjLine) :
    ∀ acc : List ℚ,
      lines.foldl
          (fun acc l =>
            match l with
            | .vertexLine a b c => acc ++ [a, b, c]
            | _ => acc)
          acc =
        acc ++ vertexFlat lines := by
  induction lines with
  | nil => intro acc; simp [vertexFlat]
  | cons l rest ih =>
    intro acc
    cases l <;> simp [vertexFlat, ih]

lemma parseObjVertices_eq (lines : List ObjLine) :
    parseObjVertices lines = vertexFlat lines := by
  simpa using parseObjVertices_foldl_eq lines []

lemma parseObjIndices_foldl_eq (lines : List ObjLine) :
    ∀ acc : List Int,
      lines.foldl
          (fun acc l =>
            match l with
            | .faceLine a b c => acc ++ [a - 1, b - 1, c - 1]
            | _ => acc)
          acc =
        acc ++ objFaceIndexList lines := by
  induction lines with
  | nil => intro acc; simp [objFaceIndexList]
  | cons l rest ih =>
    intro acc
    cases l <;> simp [objFaceIndexList, ih]

lemma parseObjIndices_eq (lines : List ObjLine) :
    parseObjIndices lines = objFaceIndexList lines := by
  simpa using parseObjIndices_foldl_eq lines []

lemma vertexFlat_length_mod (lines : List ObjLine) :
    (vertexFlat lines).length % 3 = 0 := by
  induction lines with
  | nil => simp [vertexFlat]
  | cons l rest ih =>
    cases l <;> simp [vertexFlat, ih, Nat.add_mod]

lemma objFaceIndexList_length_mod (lines : List ObjLine) :
    (objFaceIndexList lines).length % 3 = 0 := by
  induction lines with
  | nil => simp [objFaceIndexList]
  | cons l rest ih =>
    cases l <;> simp [objFaceIndexList, ih, Nat.add_mod]

lemma groupTriples_vertexFlat (lines : List ObjLine) :
    groupTriples (vertexFlat lines) = objVertexTriples lines := by
  induction lines with
  | nil => simp [vertexFlat, objVertexTriples, groupTriples]
  | cons l rest ih =>
    cases l <;> simp [vertexFlat, objVertexTriples, groupTriples, ih]

lemma legacyFlat_length (triangles : List Triangle) :
    (legacyFlat triangles).length = 3 * triangles.length := by
  induction triangles with
  | nil => simp [legacyFlat]
  | cons t rest ih => simp [legacyFlat, ih]; ring

/-- C1: for every non-empty list of vertices, the computed statistics
satisfy: per-axis min and max are the minimum and maximum of that
coordinate over all vertices, per-axis size equals max minus min,
per-axis center equals (min+max)/2, and the overall max dimension
equals the maximum of the three per-axis sizes. -/
theorem bounding_box_stats_correct (v : Vertex) (rest : List Vertex)
    (s : BoundingBoxStats) (h : computeBounds (v :: rest) = some s) :
    (s.min_x ∈ (v :: rest).map Vertex.x ∧ ∀ q ∈ (v :: rest).map Vertex.x, s.min_x ≤ q) ∧
    (s.max_x ∈ (v :: rest).map Vertex.x ∧ ∀ q ∈ (v :: rest).map Vertex.x, q ≤ s.max_x) ∧
    (s.min_y ∈ (v :: rest).map Vertex.y ∧ ∀ q ∈ (v :: rest).map Vertex.y, s.min_y ≤ q) ∧
    (s.max_y ∈ (v :: rest).map Vertex.y ∧ ∀ q ∈ (v :: rest).map Vertex.y, q ≤ s.max_y) ∧
    (s.min_z ∈ (v :: rest).map Vertex.z ∧ ∀ q ∈ (v :: rest).map Vertex.z, s.min_z ≤ q) ∧
    (s.max_z ∈ (v :: rest).map Vertex.z ∧ ∀ q ∈ (v :: rest).map Vertex.z, q ≤ s.max_z) ∧
    s.size_x = s.max_x - s.min_x ∧ s.size_y = s.max_y - s.min_y ∧
    s.size_z = s.max_z - s.min_z ∧
    s.center_x = (s.min_x + s.max_x) / 2 ∧ s.center_y = (s.min_y + s.max_y) / 2 ∧
    s.center_z = (s.min_z + s.max_z) / 2 ∧
    s.max_dimension = max s.size_x (max s.size_y s.size_z) := by
  simp only [computeBounds, Option.some.injEq] at h
  subst h
  refine ⟨⟨?_, ?_⟩, ⟨?_, ?_⟩, ⟨?_, ?_⟩, ⟨?_, ?_⟩, ⟨?_, ?_⟩, ⟨?_, ?_⟩,
    rfl, rfl, rfl, rfl, rfl, rfl, rfl⟩
  · simpa [boundsOf] using foldl_min_mem v.x (rest.map Vertex.x)
  · intro q hq
    simpa [boundsOf] using foldl_min_le v.x (rest.map Vertex.x) q (by simpa using hq)
  · simpa [boundsOf] using foldl_max_mem v.x (rest.map Vertex.x)
  · intro q hq
    simpa [boundsOf] using le_foldl_max v.x (rest.map Vertex.x) q (by simpa using hq)
  · simpa [boundsOf] using foldl_min_mem v.y (rest.map Vertex.y)
  · intro q hq
    simpa [boundsOf] using foldl_min_le v.y (rest.map Vertex.y) q (by simpa using hq)
  · simpa [boundsOf] using foldl_max_mem v.y (rest.map Vertex.y)
  · intro q hq
    simpa [boundsOf] using le_foldl_max v.y (rest.map Vertex.y) q (by simpa using hq)
  · simpa [boundsOf] using foldl_min_mem v.z (rest.map Vertex.z)
  · intro q hq
    simpa [boundsOf] using foldl_min_le v.z (rest.map Vertex.z) q (by simpa using hq)
  · simpa [boundsOf] using foldl_max_mem v.z (rest.map Vertex.z)
  · intro q hq
    simpa [boundsOf] using le_foldl_max v.z (rest.map Vertex.z) q (by simpa using hq)

/-- A concrete vertex and its singleton-list statistics, used to
instantiate the statistics theorem. -/
def wVertex : Vertex := ⟨1, 2, 3⟩

/-- The statistics of the singleton list `[wVertex]`. -/
def wStats : BoundingBoxStats := boundsOf wVertex []

/-- Witness: the statistics theorem instantiated on the singleton list
`[wVertex]`. -/
theorem bounding_box_stats_correct_witness :
    (wStats.min_x ∈ [wVertex].map Vertex.x ∧ ∀ q ∈ [wVertex].map Vertex.x, wStats.min_x ≤ q) ∧
    (wStats.max_x ∈ [wVertex].map Vertex.x ∧ ∀ q ∈ [wVertex].map Vertex.x, q ≤ wStats.max_x) ∧
    (wStats.min_y ∈ [wVertex].map Vertex.y ∧ ∀ q ∈ [wVertex].map Vertex.y, wStats.min_y ≤ q) ∧
    (wStats.max_y ∈ [wVertex].map Vertex.y ∧ ∀ q ∈ [wVertex].map Vertex.y, q ≤ wStats.max_y) ∧
    (wStats.min_z ∈ [wVertex].map Vertex.z ∧ ∀ q ∈ [wVertex].map Vertex.z, wStats.min_z ≤ q) ∧
    (wStats.max_z ∈ [wVertex].map Vertex.z ∧ ∀ q ∈ [wVertex].map Vertex.z, q ≤ wStats.max_z) ∧
    wStats.size_x = wStats.max_x - wStats.min_x ∧
    wStats.size_y = wStats.max_y - wStats.min_y ∧
    wStats.size_z = wStats.max_z - wStats.min_z ∧
    wStats.center_x = (wStats.min_x + wStats.max_x) / 2 ∧
    wStats.center_y = (wStats.min_y + wStats.max_y) / 2 ∧
    wStats.center_z = (wStats.min_z + wStats.max_z) / 2 ∧
    wStats.max_dimension = max wStats.size_x (max wStats.size_y wStats.size_z) :=
  bounding_box_stats_correct wVertex [] wStats rfl

/-- C2: the bounding-box statistics are invariant under permutation of
the vertex list; the result depends only on the multiset of vertex
coordinates. -/
theorem bounds_perm_invariant (vl wl : List Vertex) (h : vl.Perm wl) :
    computeBounds vl = computeBounds wl := by
  cases vl with
  | nil =>
    cases wl with
    | nil => rfl
    | cons b m => exact absurd h.length_eq (by simp)
  | cons a l =>
    cases wl with
    | nil => exact absurd h.length_eq (by simp)
    | cons b m =>
      have hx := foldl_min_perm a.x b.x (l.map Vertex.x) (m.map Vertex.x)
        (by simpa using h.map Vertex.x)
      have hX := foldl_max_perm a.x b.x (l.map Vertex.x) (m.map Vertex.x)
        (by simpa using h.map Vertex.x)
      have hy := foldl_min_perm a.y b.y (l.map Vertex.y) (m.map Vertex.y)
        (by simpa using h.map Vertex.y)
      have hY := foldl_max_perm a.y b.y (l.map Vertex.y) (m.map Vertex.y)
        (by simpa using h.map Vertex.y)
      have hz := foldl_min_perm a.z b.z (l.map Vertex.z) (m.map Vertex.z)
        (by simpa using h.map Vertex.z)
      have hZ := foldl_max_perm a.z b.z (l.map Vertex.z) (m.map Vertex.z)
        (by simpa using h.map Vertex.z)
      simp only [computeBounds, boundsOf]
      rw [hx, hX, hy, hY, hz, hZ]

/-- Witness: permutation invariance on a concrete two-element list and
its swap. -/
theorem bounds_perm_invariant_witness :
    computeBounds [(⟨0, 0, 0⟩ : Vertex), ⟨1, 2, 3⟩] =
      computeBounds [(⟨1, 2, 3⟩ : Vertex), ⟨0, 0, 0⟩] :=
  bounds_perm_invariant _ _ (List.Perm.swap _ _ _)

/-- C3: feeding the converter output record to the compact reader
yields exactly the triples parsed from the `v ` lines of the OBJ input
(hence the same multiset), and the record index list equals, in order,
each `f ` line contributing its three integers each minus 1. -/
theorem obj_roundtrip (lines : List ObjLine) :
    CompactMeshReader (convert_obj_to_json lines).record.vertices
        (convert_obj_to_json lines).record.indices =
      .ok (objVertexTriples lines) ∧
    (convert_obj_to_json lines).record.indices = objFaceIndexList lines := by
  have hv : (convert_obj_to_json lines).record.vertices = vertexFlat lines :=
    parseObjVertices_eq lines
  have hi : (convert_obj_to_json lines).record.indices = objFaceIndexList lines :=
    parseObjIndices_eq lines
  refine ⟨?_, hi⟩
  rw [hv, hi]
  simp [CompactMeshReader, vertexFlat_length_mod, objFaceIndexList_length_mod,
    groupTriples_vertexFlat]

/-- C4: a compact-format input whose vertex array length is not
divisible by 3, or whose index array length is not divisible by 3,
fails with the malformed-mesh error naming the offending array and its
length, and no bounding-box statistics are produced. -/
theorem compact_malformed_error (vs : List ℚ) (idx : List Int)
    (t : Option (List Triangle))
    (h : vs.length % 3 ≠ 0 ∨ idx.length % 3 ≠ 0) :
    analyze_mesh ⟨some vs, some idx, t⟩ =
      .error
        (if vs.length % 3 ≠ 0 then .malformedVertexArray vs.length
         else .malformedIndexArray idx.length) := by
  by_cases hv : vs.length % 3 ≠ 0
  · simp [analyze_mesh, readMesh, CompactMeshReader, hv]
  · have hi : idx.length % 3 ≠ 0 := by tauto
    simp [analyze_mesh, readMesh, CompactMeshReader, hv, hi]

/-- Witness: a 4-element vertex array triggers the malformed-vertex
error naming length 4. -/
theorem compact_malformed_error_witness :
    analyze_mesh ⟨some [0, 0, 0, 0], some [], none⟩ =
      .error (.malformedVertexArray 4) := by
  have h := compact_malformed_error [0, 0, 0, 0] [] none (Or.inl (by decide))
  simpa using h

/-- C5: if both the vertices and indices keys are present the compact
reader is used; otherwise, if the triangles key is present the legacy
reader is used; otherwise the operation fails with the
unrecognized-format error. -/
theorem format_dispatch (data : MeshData) :
    (∀ vs idx, data.vertices = some vs → data.indices = some idx →
      readMesh data = CompactMeshReader vs idx) ∧
    ((data.vertices = none ∨ data.indices = none) →
      ∀ ts, data.triangles = some ts →
        readMesh data = .ok (LegacyMeshReader ts)) ∧
    ((data.vertices = none ∨ data.indices = none) → data.triangles = none →
      analyze_mesh data = .error .unrecognizedFormat) := by
  obtain ⟨ov, oi, ot⟩ := data
  refine ⟨?_, ?_, ?_⟩
  · rintro vs idx rfl rfl
    rfl
  · rintro (rfl | rfl) ts rfl
    · cases oi <;> rfl
    · cases ov <;> rfl
  · rintro (rfl | rfl) rfl
    · cases oi <;> rfl
    · cases ov <;> rfl

/-- Witness: the dispatch theorem applied to an input with none of the
recognized keys. -/
theorem format_dispatch_witness :
    analyze_mesh ⟨none, none, none⟩ = .error .unrecognizedFormat :=
  (format_dispatch ⟨none, none, none⟩).2.2 (Or.inl rfl) rfl

/-- C6 counterexample: analyze_bunny, a path that computes bounding-box
statistics, does not fail with the empty-mesh error on an empty vertex
sequence; it crashes (ValueError from min over an empty sequence,
modelled as none). -/
theorem analyze_bunny_empty_crashes : analyze_bunny [] = none := rfl

/-- C6 amended: on the analyze_mesh path, every input whose extracted
vertex list is empty fails with the empty-mesh error, with no
statistics produced. -/
theorem empty_vertex_list_empty_mesh_error (data : MeshData)
    (vl : List Vertex) (h : readMesh data = .ok vl) (he : vl = []) :
    analyze_mesh data = .error .emptyMesh := by
  subst he
  simp [analyze_mesh, h, computeBounds]

/-- Witness: a legacy input with an empty triangles array yields the
empty-mesh error. -/
theorem empty_vertex_list_empty_mesh_error_witness :
    analyze_mesh ⟨none, none, some []⟩ = .error .emptyMesh :=
  empty_vertex_list_empty_mesh_error ⟨none, none, some []⟩ [] rfl rfl

/-- C7: the legacy reader produces the in-order flattening emitting v0,
then v1, then v2 for each triangle record, and its length is exactly 3
times the number of triangles (duplicates preserved). -/
theorem legacy_reader_flattening (triangles : List Triangle) :
    LegacyMeshReader triangles = legacyFlat triangles ∧
    (LegacyMeshReader triangles).length = 3 * triangles.length := by
  have h : LegacyMeshReader triangles = legacyFlat triangles := by
    simpa [LegacyMeshReader] using legacy_foldl_eq triangles []
  exact ⟨h, by rw [h, legacyFlat_length]⟩

/-- C8: when a parsed count disagrees with the header-declared count,
the converter sets a mismatch warning but still produces the full
output record. -/
theorem converter_mismatch_nonfatal (lines : List ObjLine)
    (h : (((parseObjVertices lines).length / 3 : Nat) : Int) ≠ (parseHeaderCounts lines).1 ∨
      (((parseObjIndices lines).length / 3 : Nat) : Int) ≠ (parseHeaderCounts lines).2) :
    ((convert_obj_to_json lines).vertexCountWarning = true ∨
      (convert_obj_to_json lines).faceCountWarning = true) ∧
    (convert_obj_to_json lines).record =
      { vertex_count := (parseHeaderCounts lines).1
        face_count := (parseHeaderCounts lines).2
        vertices := parseObjVertices lines
        indices := parseObjIndices lines } := by
  constructor
  · rcases h with h | h
    · exact Or.inl (decide_eq_true h)
    · exact Or.inr (decide_eq_true h)
  · rfl

/-- Witness: a header declaring 5 vertices over an input with no vertex
lines triggers the vertex-count warning while the record is still
produced. -/
theorem converter_mismatch_nonfatal_witness :
    ((convert_obj_to_json [ObjLine.headerVertexCount 5]).vertexCountWarning = true ∨
      (convert_obj_to_json [ObjLine.headerVertexCount 5]).faceCountWarning = true) ∧
    (convert_obj_to_json [ObjLine.headerVertexCount 5]).record =
      { vertex_count := (parseHeaderCounts [ObjLine.headerVertexCount 5]).1
        face_count := (parseHeaderCounts [ObjLine.headerVertexCount 5]).2
        vertices := parseObjVertices [ObjLine.headerVertexCount 5]
        indices := parseObjIndices [ObjLine.headerVertexCount 5] } :=
  converter_mismatch_nonfatal [ObjLine.headerVertexCount 5] (Or.inl (by decide))

/-- A demo OBJ input whose header declares 5 vertices while only one
vertex line is present. -/
def mismatchLines : List ObjLine := [.headerVertexCount 5, .vertexLine 0 0 0]

/-- A demo OBJ input whose only header line sits past the first 10
lines and is therefore ignored by the header scan. -/
def lateHeaderLines : List ObjLine :=
  List.replicate 10 .otherLine ++ [.headerVertexCount 7]

/-- C9: the vertex_count and face_count fields written by the converter
equal the header-declared counts (0 when no header line is among the
first 10 lines), not the parsed counts, even when the two disagree. -/
theorem record_counts_from_header :
    (∀ lines : List ObjLine,
      (convert_obj_to_json lines).record.vertex_count = (parseHeaderCounts lines).1 ∧
      (convert_obj_to_json lines).record.face_count = (parseHeaderCounts lines).2) ∧
    (convert_obj_to_json mismatchLines).record.vertex_count = 5 ∧
    (((parseObjVertices mismatchLines).length / 3 : Nat) : Int) = 1 ∧
    (convert_obj_to_json lateHeaderLines).record.vertex_count = 0 := by
  refine ⟨fun lines => ⟨rfl, rfl⟩, by decide, by decide, by decide⟩

/-- C10: a compact input with empty vertices and indices arrays passes
both divisibility checks and fails with the empty-mesh error, never the
malformed-mesh or unrecognized-format errors. -/
theorem empty_compact_empty_mesh_error (t : Option (List Triangle)) :
    analyze_mesh ⟨some [], some [], t⟩ = .error .emptyMesh := rfl

end Quasi
